import Mathlib

/-!
Shallow embedding of `src/packages/crypto-wasm/src/lib.rs` (Volli crypto-wasm wrapper).

The wrapper code layers strict length validation and error reporting over two
opaque external primitives (fips203 ML-KEM-768 and fips204 ML-DSA-65), a SHA3-256
hash, a ChaCha20 seed-expanding RNG and a secure random byte source (`getrandom`).

Embedding conventions:
* Byte strings are `List Nat` (`Bytes`); only lengths and byte-for-byte equality
  matter to the wrapper, never arithmetic on bytes.
* The external primitives are opaque: they are fields of `KemPrim` / `DsaPrim`
  structures over which every theorem quantifies.  A `keygen` field models the
  composition `ChaCha20Rng::from_seed(seed)` followed by `try_keygen_with_rng`,
  so its argument is exactly the 32-byte ChaCha20 seed.  The fixed-size Rust
  array types `[u8; EK_LEN]` etc. returned by `into_bytes` are reflected as
  length facts carried by the structure.
* Decoded primitive keys (`EncapsKey`, `DecapsKey`, `PublicKey`, `PrivateKey`,
  `CipherText`) are represented by their validated byte encodings: `try_from_bytes`
  becomes a `Bytes → Option Bytes` field.
* SHA3-256 is an opaque function parameter `h : Bytes → Bytes`.
* `getrandom` is modelled by an explicit `Option Bytes` argument: `none` is an
  entropy failure, `some s` means the 32-byte buffer was filled with `s`.
  An operation that never draws entropy takes no such argument.
* `Result<T, JsValue>` becomes `Except CryptoError T`; each distinct error
  message string in the source gets its own constructor.
* Rust `&self` methods cannot mutate the receiver; `*Call` variants return the
  receiver next to the result to make that frame condition a provable statement.
-/

/-- Byte strings crossing the wrapper boundary. -/
abbrev Bytes := List Nat

/-- fips203 `ml_kem_768::EK_LEN` (encapsulation/public key bytes). -/
def EK_LEN : Nat := 1184

/-- fips203 `ml_kem_768::DK_LEN` (decapsulation/secret key bytes). -/
def DK_LEN : Nat := 2400

/-- fips203 `ml_kem_768::CT_LEN` (ciphertext bytes). -/
def CT_LEN : Nat := 1088

/-- fips204 `ml_dsa_65::PK_LEN` (public key bytes). -/
def PK_LEN : Nat := 1952

/-- fips204 `ml_dsa_65::SK_LEN` (secret key bytes). -/
def SK_LEN : Nat := 4032

/-- fips204 `ml_dsa_65::SIG_LEN` (signature bytes). -/
def SIG_LEN : Nat := 3309

/-- One constructor per distinct `JsValue::from_str` error message in the source. -/
inductive CryptoError where
  /-- "Seed must be exactly 32 bytes" -/
  | seedLength : CryptoError
  /-- "Random generation failed: ..." -/
  | randomFailed : CryptoError
  /-- "Key generation failed: ..." -/
  | keygenFailed : CryptoError
  /-- "Invalid public key length: expected {}, got {}" -/
  | invalidPublicKeyLength (expected got : Nat) : CryptoError
  /-- "Invalid public key: ..." (decode failure on a correctly sized key) -/
  | invalidPublicKey : CryptoError
  /-- "Encapsulation failed: ..." -/
  | encapsFailed : CryptoError
  /-- "Invalid ciphertext length: expected {}, got {}" -/
  | invalidCiphertextLength (expected got : Nat) : CryptoError
  /-- "Invalid ciphertext: ..." (decode failure on a correctly sized ciphertext) -/
  | invalidCiphertext : CryptoError
  /-- "Invalid secret key length: expected {}, got {}" -/
  | invalidSecretKeyLength (expected got : Nat) : CryptoError
  /-- "Invalid secret key: ..." (decode failure on a correctly sized key) -/
  | invalidSecretKey : CryptoError
  /-- "Decapsulation failed: ..." -/
  | decapsFailed : CryptoError
  /-- "Invalid signature length: expected {}, got {}" -/
  | invalidSignatureLength (expected got : Nat) : CryptoError
  /-- "Signing failed: ..." -/
  | signFailed : CryptoError
  deriving DecidableEq, Repr

/-- The opaque fips203 ML-KEM-768 primitive, as consumed by the wrapper.
`keygen s` is `KG::try_keygen_with_rng(&mut ChaCha20Rng::from_seed(s))` followed
by `into_bytes` on both halves; `ekDecode`/`ctDecode`/`dkDecode` are the
`try_from_bytes` decoders (applied only to correctly sized inputs, and returning
the validated encoding); `encaps ek s` is `ek.try_encaps_with_rng` with a
ChaCha20 RNG seeded by `s`, returning `(sharedSecret, ciphertext)` bytes;
`decaps dk ct` is `dk.try_decaps(&ct)`.  The length facts reflect the fixed-size
array types `[u8; EK_LEN]` / `[u8; DK_LEN]` of the Rust API. -/
structure KemPrim where
  keygen : Bytes → Option (Bytes × Bytes)
  ekDecode : Bytes → Option Bytes
  encaps : Bytes → Bytes → Option (Bytes × Bytes)
  ctDecode : Bytes → Option Bytes
  dkDecode : Bytes → Option Bytes
  decaps : Bytes → Bytes → Option Bytes
  keygen_ek_len : ∀ s ek dk, keygen s = some (ek, dk) → ek.length = EK_LEN
  keygen_dk_len : ∀ s ek dk, keygen s = some (ek, dk) → dk.length = DK_LEN

/-- The opaque fips204 ML-DSA-65 primitive, as consumed by the wrapper.
`tsign sk s msg ctx` is `sk.try_sign_with_rng(&mut ChaCha20Rng::from_seed(s),
msg, ctx)`; `verify pk msg sg ctx` is `pk.verify(msg, &sg, ctx)` — total,
returning a `Bool`, never an error.  Length facts as in `KemPrim`. -/
structure DsaPrim where
  keygen : Bytes → Option (Bytes × Bytes)
  skDecode : Bytes → Option Bytes
  tsign : Bytes → Bytes → Bytes → Bytes → Option Bytes
  pkDecode : Bytes → Option Bytes
  verify : Bytes → Bytes → Bytes → Bytes → Bool
  keygen_pk_len : ∀ s pk sk, keygen s = some (pk, sk) → pk.length = PK_LEN
  keygen_sk_len : ∀ s pk sk, keygen s = some (pk, sk) → sk.length = SK_LEN

/-- `pub struct VollyKEM { public_key: Vec<u8>, secret_key: Vec<u8> }` -/
structure VollyKEM where
  public_key : Bytes
  secret_key : Bytes
  deriving DecidableEq, Repr

/-- `pub struct VollyEncapsulation { ciphertext: Vec<u8>, shared_secret: Vec<u8> }` -/
structure VollyEncapsulation where
  ciphertext : Bytes
  shared_secret : Bytes
  deriving DecidableEq, Repr

namespace VollyKEM

/-- `VollyKEM::new`: draw a 32-byte seed from `getrandom` (the `ent` argument),
seed ChaCha20, run keygen, store both serialized halves. -/
def new (K : KemPrim) (ent : Option Bytes) : Except CryptoError VollyKEM :=
  match ent with
  | none => .error .randomFailed
  | some seed =>
    match K.keygen seed with
    | none => .error .keygenFailed
    | some (ek, dk) => .ok ⟨ek, dk⟩

/-- `VollyKEM::from_seed`: reject a seed not exactly 32 bytes; otherwise hash it
with SHA3-256 (`h`), seed ChaCha20 with the digest, run keygen. -/
def from_seed (K : KemPrim) (h : Bytes → Bytes) (seed : Bytes) :
    Except CryptoError VollyKEM :=
  if seed.length ≠ 32 then .error .seedLength
  else
    match K.keygen (h seed) with
    | none => .error .keygenFailed
    | some (ek, dk) => .ok ⟨ek, dk⟩

/-- `VollyKEM::public_key` getter: `Uint8Array::from(&self.public_key[..])`
copies the held bytes out; the `&self` receiver is returned unchanged. -/
def public_key_call (self : VollyKEM) : Bytes × VollyKEM :=
  (self.public_key, self)

/-- `VollyKEM::secret_key` getter, same shape as `public_key_call`. -/
def secret_key_call (self : VollyKEM) : Bytes × VollyKEM :=
  (self.secret_key, self)

/-- `VollyKEM::encapsulate`: validate the peer public key length, decode it,
draw a fresh 32-byte seed, run `try_encaps_with_rng`.  The `&self` receiver is
never read. -/
def encapsulate (K : KemPrim) (self : VollyKEM) (public_key : Bytes)
    (ent : Option Bytes) : Except CryptoError VollyEncapsulation :=
  if public_key.length ≠ EK_LEN then
    .error (.invalidPublicKeyLength EK_LEN public_key.length)
  else
    match K.ekDecode public_key with
    | none => .error .invalidPublicKey
    | some ek =>
      match ent with
      | none => .error .randomFailed
      | some seed =>
        match K.encaps ek seed with
        | none => .error .encapsFailed
        | some (shared_secret, ciphertext) => .ok ⟨ciphertext, shared_secret⟩

/-- `encapsulate` as a call on a shared `&self` reference: result plus the
(unchanged) receiver. -/
def encapsulateCall (K : KemPrim) (self : VollyKEM) (public_key : Bytes)
    (ent : Option Bytes) : Except CryptoError VollyEncapsulation × VollyKEM :=
  (encapsulate K self public_key ent, self)

/-- `VollyKEM::decapsulate`: validate ciphertext length, decode the ciphertext,
then defensively validate the held secret key's length, decode it, and run
`try_decaps`. -/
def decapsulate (K : KemPrim) (self : VollyKEM) (ciphertext : Bytes) :
    Except CryptoError Bytes :=
  if ciphertext.length ≠ CT_LEN then
    .error (.invalidCiphertextLength CT_LEN ciphertext.length)
  else
    match K.ctDecode ciphertext with
    | none => .error .invalidCiphertext
    | some ct =>
      if self.secret_key.length ≠ DK_LEN then
        .error (.invalidSecretKeyLength DK_LEN self.secret_key.length)
      else
        match K.dkDecode self.secret_key with
        | none => .error .invalidSecretKey
        | some dk =>
          match K.decaps dk ct with
          | none => .error .decapsFailed
          | some shared_secret => .ok shared_secret

/-- `VollyKEM::decapsulate_with_key` (static): same body as `decapsulate` with
the secret key passed explicitly. -/
def decapsulate_with_key (K : KemPrim) (secret_key ciphertext : Bytes) :
    Except CryptoError Bytes :=
  if ciphertext.length ≠ CT_LEN then
    .error (.invalidCiphertextLength CT_LEN ciphertext.length)
  else
    match K.ctDecode ciphertext with
    | none => .error .invalidCiphertext
    | some ct =>
      if secret_key.length ≠ DK_LEN then
        .error (.invalidSecretKeyLength DK_LEN secret_key.length)
      else
        match K.dkDecode secret_key with
        | none => .error .invalidSecretKey
        | some dk =>
          match K.decaps dk ct with
          | none => .error .decapsFailed
          | some shared_secret => .ok shared_secret

/-- `VollyKEM::from_keys`: validate both lengths independently, store copies of
the supplied bytes; no pairing check. -/
def from_keys (public_key secret_key : Bytes) : Except CryptoError VollyKEM :=
  if public_key.length ≠ EK_LEN then
    .error (.invalidPublicKeyLength EK_LEN public_key.length)
  else if secret_key.length ≠ DK_LEN then
    .error (.invalidSecretKeyLength DK_LEN secret_key.length)
  else
    .ok ⟨public_key, secret_key⟩

end VollyKEM

/-- `pub struct VollyDSA { public_key: Vec<u8>, secret_key: Vec<u8> }` -/
structure VollyDSA where
  public_key : Bytes
  secret_key : Bytes
  deriving DecidableEq, Repr

namespace VollyDSA

/-- `VollyDSA::new`: draw a 32-byte seed from `getrandom`, seed ChaCha20, run
ML-DSA keygen, store both serialized halves. -/
def new (D : DsaPrim) (ent : Option Bytes) : Except CryptoError VollyDSA :=
  match ent with
  | none => .error .randomFailed
  | some seed =>
    match D.keygen seed with
    | none => .error .keygenFailed
    | some (pk, sk) => .ok ⟨pk, sk⟩

/-- `VollyDSA::from_seed`: reject a seed not exactly 32 bytes; otherwise hash it
with SHA3-256 (`h`), seed ChaCha20 with the digest, run keygen. -/
def from_seed (D : DsaPrim) (h : Bytes → Bytes) (seed : Bytes) :
    Except CryptoError VollyDSA :=
  if seed.length ≠ 32 then .error .seedLength
  else
    match D.keygen (h seed) with
    | none => .error .keygenFailed
    | some (pk, sk) => .ok ⟨pk, sk⟩

/-- `VollyDSA::public_key` getter: copies the held bytes out; `&self` unchanged. -/
def public_key_call (self : VollyDSA) : Bytes × VollyDSA :=
  (self.public_key, self)

/-- `VollyDSA::secret_key` getter, same shape. -/
def secret_key_call (self : VollyDSA) : Bytes × VollyDSA :=
  (self.secret_key, self)

/-- `VollyDSA::sign`: defensively validate the held secret key's length, decode
it, draw a fresh 32-byte seed, and run `try_sign_with_rng` with the empty
context. -/
def sign (D : DsaPrim) (self : VollyDSA) (message : Bytes) (ent : Option Bytes) :
    Except CryptoError Bytes :=
  if self.secret_key.length ≠ SK_LEN then
    .error (.invalidSecretKeyLength SK_LEN self.secret_key.length)
  else
    match D.skDecode self.secret_key with
    | none => .error .invalidSecretKey
    | some sk =>
      match ent with
      | none => .error .randomFailed
      | some seed =>
        match D.tsign sk seed message [] with
        | none => .error .signFailed
        | some signature => .ok signature

/-- `VollyDSA::sign_with_key` (static): same body as `sign` with the secret key
passed explicitly. -/
def sign_with_key (D : DsaPrim) (secret_key message : Bytes) (ent : Option Bytes) :
    Except CryptoError Bytes :=
  if secret_key.length ≠ SK_LEN then
    .error (.invalidSecretKeyLength SK_LEN secret_key.length)
  else
    match D.skDecode secret_key with
    | none => .error .invalidSecretKey
    | some sk =>
      match ent with
      | none => .error .randomFailed
      | some seed =>
        match D.tsign sk seed message [] with
        | none => .error .signFailed
        | some signature => .ok signature

/-- `VollyDSA::verify_with_key` (static): validate the public key length, decode
the public key, validate the signature length, then call the primitive `verify`
with the empty context; the signature bytes are never decoded. -/
def verify_with_key (D : DsaPrim) (public_key message signature : Bytes) :
    Except CryptoError Bool :=
  if public_key.length ≠ PK_LEN then
    .error (.invalidPublicKeyLength PK_LEN public_key.length)
  else
    match D.pkDecode public_key with
    | none => .error .invalidPublicKey
    | some pk =>
      if signature.length ≠ SIG_LEN then
        .error (.invalidSignatureLength SIG_LEN signature.length)
      else
        .ok (D.verify pk message signature [])

end VollyDSA

/-! Concrete primitive instances, used only to evaluate the wrapper on closed
inputs (witnesses and counterexamples).  `keygen` puts the first seed byte at
the head of both output keys so that different ChaCha20 seeds are observable in
the produced key material. -/

/-- A concrete ML-KEM primitive whose decoders accept everything. -/
def kemPrimA : KemPrim where
  keygen := fun s =>
    some (s.headD 0 :: List.replicate (EK_LEN - 1) 0,
          s.headD 0 :: List.replicate (DK_LEN - 1) 0)
  ekDecode := fun b => some b
  encaps := fun _ s => some (List.replicate 32 (s.headD 0), List.replicate CT_LEN (s.headD 0))
  ctDecode := fun b => some b
  dkDecode := fun b => some b
  decaps := fun _ _ => some (List.replicate 32 0)
  keygen_ek_len := by
    intro s ek dk hkg
    simp only [Option.some.injEq, Prod.mk.injEq] at hkg
    rw [← hkg.1]
    simp only [List.length_cons, List.length_replicate, EK_LEN]
  keygen_dk_len := by
    intro s ek dk hkg
    simp only [Option.some.injEq, Prod.mk.injEq] at hkg
    rw [← hkg.2]
    simp only [List.length_cons, List.length_replicate, DK_LEN]

/-- `kemPrimA` with a ciphertext decoder that rejects everything. -/
def kemPrimNoCt : KemPrim :=
  { kemPrimA with ctDecode := fun _ => none }

/-- A concrete ML-DSA primitive whose decoders accept everything and whose
`verify` always succeeds. -/
def dsaPrimA : DsaPrim where
  keygen := fun s =>
    some (s.headD 0 :: List.replicate (PK_LEN - 1) 0,
          s.headD 0 :: List.replicate (SK_LEN - 1) 0)
  skDecode := fun b => some b
  tsign := fun _ s _ _ => some (List.replicate SIG_LEN (s.headD 0))
  pkDecode := fun b => some b
  verify := fun _ _ _ _ => true
  keygen_pk_len := by
    intro s pk sk hkg
    simp only [Option.some.injEq, Prod.mk.injEq] at hkg
    rw [← hkg.1]
    simp only [List.length_cons, List.length_replicate, PK_LEN]
  keygen_sk_len := by
    intro s pk sk hkg
    simp only [Option.some.injEq, Prod.mk.injEq] at hkg
    rw [← hkg.2]
    simp only [List.length_cons, List.length_replicate, SK_LEN]

/-- `dsaPrimA` with a public-key decoder that rejects everything. -/
def dsaPrimNoPk : DsaPrim :=
  { dsaPrimA with pkDecode := fun _ => none }

/-- A hash standing in for SHA3-256 on closed inputs: constant digest `1,1,...,1`. -/
def hashOne : Bytes → Bytes := fun _ => List.replicate 32 1

/-- The all-zero 32-byte seed. -/
def seed0 : Bytes := List.replicate 32 0

/-- All-zero byte strings of the fixed lengths, for closed evaluations. -/
def ekPad : Bytes := List.replicate EK_LEN 0

/-- All-zero DK_LEN-byte string. -/
def dkPad : Bytes := List.replicate DK_LEN 0

/-- All-zero CT_LEN-byte string. -/
def ctPad : Bytes := List.replicate CT_LEN 0

/-- All-zero PK_LEN-byte string. -/
def pkPad : Bytes := List.replicate PK_LEN 0

/-- All-zero SK_LEN-byte string. -/
def skPad : Bytes := List.replicate SK_LEN 0

/-- All-zero SIG_LEN-byte string. -/
def sigPad : Bytes := List.replicate SIG_LEN 0

/-- C4: `decapsulate_with_key(sk, ct)` is extensionally identical to
`decapsulate(ct)` on an instance holding `sk`: for every primitive, every held
keypair, and every ciphertext, the two calls return the same result (same
shared secret on success, same error otherwise). -/
theorem decapsulate_with_key_refines_decapsulate (K : KemPrim) (kp : VollyKEM)
    (ciphertext : Bytes) :
    VollyKEM.decapsulate K kp ciphertext =
      VollyKEM.decapsulate_with_key K kp.secret_key ciphertext := rfl

/-- C6: `encapsulate` does not use the instance's held state: two instances
with arbitrary held keypairs produce identical results for the same peer public
key and the same drawn random seed, and the `&self` receiver of each call is
returned unchanged. -/
theorem encapsulate_ignores_instance_state (K : KemPrim) (a b : VollyKEM)
    (pk : Bytes) (ent : Option Bytes) :
    VollyKEM.encapsulate K a pk ent = VollyKEM.encapsulate K b pk ent ∧
    (VollyKEM.encapsulateCall K a pk ent).2 = a ∧
    (VollyKEM.encapsulateCall K b pk ent).2 = b :=
  ⟨rfl, rfl, rfl⟩

/-- C8: the `public_key`/`secret_key` accessors are idempotent and
non-mutating, on both modules: a call returns the held bytes and leaves the
receiver unchanged, and a second call returns the same bytes. -/
theorem accessors_idempotent_non_mutating (kp : VollyKEM) (dp : VollyDSA) :
    (VollyKEM.public_key_call kp).2 = kp ∧
    (VollyKEM.public_key_call ((VollyKEM.public_key_call kp).2)).1 =
      (VollyKEM.public_key_call kp).1 ∧
    (VollyKEM.secret_key_call kp).2 = kp ∧
    (VollyKEM.secret_key_call ((VollyKEM.secret_key_call kp).2)).1 =
      (VollyKEM.secret_key_call kp).1 ∧
    (VollyDSA.public_key_call dp).2 = dp ∧
    (VollyDSA.public_key_call ((VollyDSA.public_key_call dp).2)).1 =
      (VollyDSA.public_key_call dp).1 ∧
    (VollyDSA.secret_key_call dp).2 = dp ∧
    (VollyDSA.secret_key_call ((VollyDSA.secret_key_call dp).2)).1 =
      (VollyDSA.secret_key_call dp).1 :=
  ⟨rfl, rfl, rfl, rfl, rfl, rfl, rfl, rfl⟩

/-- C1: on a 32-byte seed, `from_seed` (KEM and DSA) equals the `generate`
keygen path fed with the SHA3-256 digest of the seed as the ChaCha20 seed; two
calls with the same seed give byte-identical keys; and feeding the digest is
observably different from feeding the raw seed. -/
theorem from_seed_hashes_then_seeds (K : KemPrim) (D : DsaPrim)
    (h : Bytes → Bytes) (s : Bytes) (hs : s.length = 32) :
    VollyKEM.from_seed K h s = VollyKEM.new K (some (h s)) ∧
    VollyDSA.from_seed D h s = VollyDSA.new D (some (h s)) ∧
    (∀ p q, VollyKEM.from_seed K h s = .ok p → VollyKEM.from_seed K h s = .ok q →
      p.public_key = q.public_key ∧ p.secret_key = q.secret_key) ∧
    (∀ p q, VollyDSA.from_seed D h s = .ok p → VollyDSA.from_seed D h s = .ok q →
      p.public_key = q.public_key ∧ p.secret_key = q.secret_key) ∧
    VollyKEM.from_seed kemPrimA hashOne seed0 ≠ VollyKEM.new kemPrimA (some seed0) := by
  refine ⟨?_, ?_, ?_, ?_, ?_⟩
  · simp [VollyKEM.from_seed, VollyKEM.new, hs]
  · simp [VollyDSA.from_seed, VollyDSA.new, hs]
  · intro p q hp hq
    rw [hp] at hq
    cases hq
    exact ⟨rfl, rfl⟩
  · intro p q hp hq
    rw [hp] at hq
    cases hq
    exact ⟨rfl, rfl⟩
  · intro hEq
    have h1 : VollyKEM.from_seed kemPrimA hashOne seed0 =
        .ok ⟨1 :: List.replicate (EK_LEN - 1) 0, 1 :: List.replicate (DK_LEN - 1) 0⟩ := rfl
    have h2 : VollyKEM.new kemPrimA (some seed0) =
        .ok ⟨0 :: List.replicate (EK_LEN - 1) 0, 0 :: List.replicate (DK_LEN - 1) 0⟩ := rfl
    rw [h1, h2] at hEq
    simp at hEq

/-- C1 witness at the concrete all-zero seed. -/
theorem from_seed_hashes_then_seeds_witness :
    VollyKEM.from_seed kemPrimA hashOne seed0 =
      VollyKEM.new kemPrimA (some (hashOne seed0)) ∧
    VollyDSA.from_seed dsaPrimA hashOne seed0 =
      VollyDSA.new dsaPrimA (some (hashOne seed0)) :=
  ⟨(from_seed_hashes_then_seeds kemPrimA dsaPrimA hashOne seed0 (by decide)).1,
   (from_seed_hashes_then_seeds kemPrimA dsaPrimA hashOne seed0 (by decide)).2.1⟩

/-- C2: `verify_with_key` returns an error exactly when the input is
structurally malformed (wrong public-key length, public key failing decode, or
wrong signature length); for a well-formed public key and a correctly sized
signature the call succeeds with the primitive's boolean verdict — a
cryptographically invalid signature is reported as `ok false`, never an error. -/
theorem verify_with_key_errors_only_on_malformed (D : DsaPrim)
    (pk msg sg : Bytes) :
    ((∃ e, VollyDSA.verify_with_key D pk msg sg = .error e) ↔
      (pk.length ≠ PK_LEN ∨ D.pkDecode pk = none ∨ sg.length ≠ SIG_LEN)) ∧
    (∀ k, pk.length = PK_LEN → D.pkDecode pk = some k → sg.length = SIG_LEN →
      VollyDSA.verify_with_key D pk msg sg = .ok (D.verify k msg sg [])) := by
  by_cases hpk : pk.length = PK_LEN
  · rcases hD : D.pkDecode pk with _ | k
    · constructor
      · simp [VollyDSA.verify_with_key, hpk, hD]
      · intro k' _ hk'
        cases hk'
    · by_cases hsg : sg.length = SIG_LEN
      · constructor
        · simp [VollyDSA.verify_with_key, hpk, hD, hsg]
        · intro k' _ hk' _
          cases hk'
          simp [VollyDSA.verify_with_key, hpk, hD, hsg]
      · constructor
        · simp [VollyDSA.verify_with_key, hpk, hD, hsg]
        · intro k' _ _ hsg'
          exact absurd hsg' hsg
  · constructor
    · simp [VollyDSA.verify_with_key, hpk]
    · intro k' hpk'
      exact absurd hpk' hpk

/-- C2 witness: concrete well-formed public key, empty message, all-zero
correctly sized signature — the call succeeds with the primitive's verdict. -/
theorem verify_with_key_errors_only_on_malformed_witness :
    VollyDSA.verify_with_key dsaPrimA pkPad [] sigPad =
      .ok (dsaPrimA.verify pkPad [] sigPad []) :=
  (verify_with_key_errors_only_on_malformed dsaPrimA pkPad [] sigPad).2 pkPad
    (by simp [pkPad, List.length_replicate]) rfl
    (by simp [sigPad, List.length_replicate])

/-- C10: `verify_with_key` never decodes the signature: for every public key
that decodes successfully, every message, and every signature of exactly
SIG_LEN bytes — regardless of its contents — the call returns the primitive's
boolean verdict; there is no signature-encoding error path. -/
theorem verify_with_key_no_signature_decode (D : DsaPrim) (pk msg sg k : Bytes)
    (hlen : pk.length = PK_LEN) (hdec : D.pkDecode pk = some k)
    (hsg : sg.length = SIG_LEN) :
    VollyDSA.verify_with_key D pk msg sg = .ok (D.verify k msg sg []) ∧
    (∀ sg', sg'.length = SIG_LEN →
      VollyDSA.verify_with_key D pk msg sg' = .ok (D.verify k msg sg' [])) := by
  constructor
  · simp [VollyDSA.verify_with_key, hlen, hdec, hsg]
  · intro sg' hsg'
    simp [VollyDSA.verify_with_key, hlen, hdec, hsg']

/-- C10 witness at a concrete decodable public key and all-zero signature. -/
theorem verify_with_key_no_signature_decode_witness :
    VollyDSA.verify_with_key dsaPrimA pkPad [] sigPad =
      .ok (dsaPrimA.verify pkPad [] sigPad []) ∧
    VollyDSA.verify_with_key dsaPrimA pkPad [] (List.replicate SIG_LEN 7) =
      .ok (dsaPrimA.verify pkPad [] (List.replicate SIG_LEN 7) []) := by
  have h := verify_with_key_no_signature_decode dsaPrimA pkPad [] sigPad pkPad
    (by simp [pkPad, List.length_replicate]) rfl
    (by simp [sigPad, List.length_replicate])
  exact ⟨h.1, h.2 (List.replicate SIG_LEN 7) (by simp [List.length_replicate])⟩

/-- C7: `from_keys(pub, priv)` succeeds exactly when `pub` has length EK_LEN
and `priv` has length DK_LEN, whatever the byte contents (no pairing check);
on success the accessors return exactly the supplied bytes. -/
theorem from_keys_validates_lengths_only (pk sk : Bytes) :
    ((∃ kp, VollyKEM.from_keys pk sk = .ok kp) ↔
      (pk.length = EK_LEN ∧ sk.length = DK_LEN)) ∧
    (∀ kp, VollyKEM.from_keys pk sk = .ok kp →
      (VollyKEM.public_key_call kp).1 = pk ∧ (VollyKEM.secret_key_call kp).1 = sk) := by
  by_cases hpk : pk.length = EK_LEN
  · by_cases hsk : sk.length = DK_LEN
    · constructor
      · simp [VollyKEM.from_keys, hpk, hsk]
      · intro kp hkp
        simp [VollyKEM.from_keys, hpk, hsk] at hkp
        rw [← hkp]
        exact ⟨rfl, rfl⟩
    · constructor
      · simp [VollyKEM.from_keys, hpk, hsk]
      · intro kp hkp
        simp [VollyKEM.from_keys, hpk, hsk] at hkp
  · constructor
    · simp [VollyKEM.from_keys, hpk]
    · intro kp hkp
      simp [VollyKEM.from_keys, hpk] at hkp

/-- C7 witness: all-zero key halves of the right lengths are accepted and
returned verbatim by the accessors. -/
theorem from_keys_validates_lengths_only_witness :
    (VollyKEM.public_key_call ⟨ekPad, dkPad⟩).1 = ekPad ∧
    (VollyKEM.secret_key_call ⟨ekPad, dkPad⟩).1 = dkPad :=
  (from_keys_validates_lengths_only ekPad dkPad).2 ⟨ekPad, dkPad⟩
    (by simp [VollyKEM.from_keys, ekPad, dkPad, List.length_replicate])

/-- C3 counterexample: with a signature of the wrong length (the empty byte
string), `verify_with_key` still consults the public-key decoder before the
signature-length check — two primitives differing only in `pkDecode` give
different results on the same wrong-length input, and a decode failure masks
the signature-length error. -/
theorem verify_decode_attempted_despite_wrong_length :
    ([] : Bytes).length ≠ SIG_LEN ∧
    VollyDSA.verify_with_key dsaPrimA pkPad [] [] =
      .error (.invalidSignatureLength SIG_LEN 0) ∧
    VollyDSA.verify_with_key dsaPrimNoPk pkPad [] [] = .error .invalidPublicKey := by
  have hlen : pkPad.length = PK_LEN := by simp [pkPad, List.length_replicate]
  refine ⟨by decide, ?_, ?_⟩
  · have hdec : dsaPrimA.pkDecode pkPad = some pkPad := rfl
    simp [VollyDSA.verify_with_key, hdec, hlen, SIG_LEN]
  · have hdec : dsaPrimNoPk.pkDecode pkPad = none := rfl
    simp [VollyDSA.verify_with_key, hdec, hlen]

/-- C3 amended: each operation checks each input's length before decoding that
same input, so a wrong-length input always yields an error, with no randomness
drawn; for the first-validated input the result is the length error and is
independent of the primitive and the entropy.  For inputs validated later
(the secret key in `decapsulate_with_key`, the signature in `verify_with_key`)
the decode of the earlier input happens first, so the call still always errors
but may report that decode's failure instead. -/
theorem wrong_length_rejected_before_crypto
    (K Kb : KemPrim) (D Db : DsaPrim) (h hb : Bytes → Bytes)
    (ent entb : Option Bytes) (s pk ct sk msg sg : Bytes) (kp kpb : VollyKEM) :
    (s.length ≠ 32 →
      VollyKEM.from_seed K h s = .error .seedLength ∧
      VollyDSA.from_seed D h s = .error .seedLength ∧
      VollyKEM.from_seed K h s = VollyKEM.from_seed Kb hb s ∧
      VollyDSA.from_seed D h s = VollyDSA.from_seed Db hb s) ∧
    (pk.length ≠ EK_LEN →
      VollyKEM.encapsulate K kp pk ent =
        .error (.invalidPublicKeyLength EK_LEN pk.length) ∧
      VollyKEM.encapsulate K kp pk ent = VollyKEM.encapsulate Kb kpb pk entb) ∧
    (ct.length ≠ CT_LEN →
      VollyKEM.decapsulate_with_key K sk ct =
        .error (.invalidCiphertextLength CT_LEN ct.length) ∧
      VollyKEM.decapsulate K kp ct =
        .error (.invalidCiphertextLength CT_LEN ct.length) ∧
      VollyKEM.decapsulate_with_key K sk ct =
        VollyKEM.decapsulate_with_key Kb sk ct) ∧
    (sk.length ≠ SK_LEN →
      VollyDSA.sign_with_key D sk msg ent =
        .error (.invalidSecretKeyLength SK_LEN sk.length) ∧
      VollyDSA.sign_with_key D sk msg ent = VollyDSA.sign_with_key Db sk msg entb) ∧
    (pk.length ≠ PK_LEN →
      VollyDSA.verify_with_key D pk msg sg =
        .error (.invalidPublicKeyLength PK_LEN pk.length) ∧
      VollyDSA.verify_with_key D pk msg sg = VollyDSA.verify_with_key Db pk msg sg) ∧
    (sk.length ≠ DK_LEN → ∃ e, VollyKEM.decapsulate_with_key K sk ct = .error e) ∧
    (sg.length ≠ SIG_LEN → ∃ e, VollyDSA.verify_with_key D pk msg sg = .error e) := by
  refine ⟨?_, ?_, ?_, ?_, ?_, ?_, ?_⟩
  · intro hlen
    exact ⟨by simp [VollyKEM.from_seed, hlen], by simp [VollyDSA.from_seed, hlen],
      by simp [VollyKEM.from_seed, hlen], by simp [VollyDSA.from_seed, hlen]⟩
  · intro hlen
    exact ⟨by simp [VollyKEM.encapsulate, hlen], by simp [VollyKEM.encapsulate, hlen]⟩
  · intro hlen
    exact ⟨by simp [VollyKEM.decapsulate_with_key, hlen],
      by simp [VollyKEM.decapsulate, hlen],
      by simp [VollyKEM.decapsulate_with_key, hlen]⟩
  · intro hlen
    exact ⟨by simp [VollyDSA.sign_with_key, hlen], by simp [VollyDSA.sign_with_key, hlen]⟩
  · intro hlen
    exact ⟨by simp [VollyDSA.verify_with_key, hlen], by simp [VollyDSA.verify_with_key, hlen]⟩
  · intro hlen
    by_cases hct : ct.length = CT_LEN
    · rcases hc : K.ctDecode ct with _ | c
      · exact ⟨.invalidCiphertext, by simp [VollyKEM.decapsulate_with_key, hct, hc]⟩
      · exact ⟨.invalidSecretKeyLength DK_LEN sk.length,
          by simp [VollyKEM.decapsulate_with_key, hct, hc, hlen]⟩
    · exact ⟨.invalidCiphertextLength CT_LEN ct.length,
        by simp [VollyKEM.decapsulate_with_key, hct]⟩
  · intro hlen
    by_cases hpk2 : pk.length = PK_LEN
    · rcases hc : D.pkDecode pk with _ | k
      · exact ⟨.invalidPublicKey, by simp [VollyDSA.verify_with_key, hpk2, hc]⟩
      · exact ⟨.invalidSignatureLength SIG_LEN sg.length,
          by simp [VollyDSA.verify_with_key, hpk2, hc, hlen]⟩
    · exact ⟨.invalidPublicKeyLength PK_LEN pk.length,
        by simp [VollyDSA.verify_with_key, hpk2]⟩

/-- C3 amended witness at concrete wrong-length inputs (all empty). -/
theorem wrong_length_rejected_before_crypto_witness :
    VollyKEM.from_seed kemPrimA hashOne [] = .error .seedLength ∧
    VollyKEM.encapsulate kemPrimA ⟨[], []⟩ [] none =
      .error (.invalidPublicKeyLength EK_LEN 0) ∧
    VollyKEM.decapsulate_with_key kemPrimA [] [] =
      .error (.invalidCiphertextLength CT_LEN 0) ∧
    VollyDSA.sign_with_key dsaPrimA [] [] none =
      .error (.invalidSecretKeyLength SK_LEN 0) ∧
    VollyDSA.verify_with_key dsaPrimA [] [] [] =
      .error (.invalidPublicKeyLength PK_LEN 0) := by
  have hw := wrong_length_rejected_before_crypto kemPrimA kemPrimNoCt dsaPrimA
    dsaPrimNoPk hashOne hashOne none (some seed0) [] [] [] [] [] []
    ⟨[], []⟩ ⟨ekPad, dkPad⟩
  exact ⟨(hw.1 (by decide)).1, (hw.2.1 (by decide)).1, (hw.2.2.1 (by decide)).1,
    (hw.2.2.2.1 (by decide)).1, (hw.2.2.2.2.1 (by decide)).1⟩

/-- C5 counterexample: an instance holding an empty (wrong-length) secret key,
given a CT_LEN-sized ciphertext that fails the primitive's structural decode,
gets the ciphertext decode error, not the key-length error — the key length is
not validated before the ciphertext is decoded. -/
theorem decapsulate_ct_decode_before_key_length_check :
    (VollyKEM.mk [] []).secret_key.length ≠ DK_LEN ∧
    ctPad.length = CT_LEN ∧
    VollyKEM.decapsulate kemPrimNoCt ⟨[], []⟩ ctPad = .error .invalidCiphertext ∧
    VollyKEM.decapsulate kemPrimNoCt ⟨[], []⟩ ctPad ≠
      .error (.invalidSecretKeyLength DK_LEN 0) := by
  have hlen : ctPad.length = CT_LEN := by simp [ctPad, List.length_replicate]
  have hdec : kemPrimNoCt.ctDecode ctPad = none := rfl
  refine ⟨by decide, hlen, ?_, ?_⟩
  · simp [VollyKEM.decapsulate, hdec, hlen]
  · simp [VollyKEM.decapsulate, hdec, hlen]

/-- C5 amended: `decapsulate` validates the ciphertext length, then decodes the
ciphertext, and only then defensively validates the held private key's length;
for an instance with a wrong-length key it returns the key-length error for any
CT_LEN-sized ciphertext that decodes successfully, the ciphertext decode error
when decoding fails, and in every case an error. -/
theorem decapsulate_key_length_checked_after_ct_decode (K : KemPrim)
    (kp : VollyKEM) (ct c : Bytes) (hsk : kp.secret_key.length ≠ DK_LEN) :
    (ct.length = CT_LEN → K.ctDecode ct = some c →
      VollyKEM.decapsulate K kp ct =
        .error (.invalidSecretKeyLength DK_LEN kp.secret_key.length)) ∧
    (ct.length = CT_LEN → K.ctDecode ct = none →
      VollyKEM.decapsulate K kp ct = .error .invalidCiphertext) ∧
    (ct.length ≠ CT_LEN →
      VollyKEM.decapsulate K kp ct =
        .error (.invalidCiphertextLength CT_LEN ct.length)) ∧
    (∃ e, VollyKEM.decapsulate K kp ct = .error e) := by
  refine ⟨?_, ?_, ?_, ?_⟩
  · intro hct hc
    simp [VollyKEM.decapsulate, hct, hc, hsk]
  · intro hct hc
    simp [VollyKEM.decapsulate, hct, hc]
  · intro hct
    simp [VollyKEM.decapsulate, hct]
  · by_cases hct : ct.length = CT_LEN
    · rcases hc : K.ctDecode ct with _ | c'
      · exact ⟨.invalidCiphertext, by simp [VollyKEM.decapsulate, hct, hc]⟩
      · exact ⟨.invalidSecretKeyLength DK_LEN kp.secret_key.length,
          by simp [VollyKEM.decapsulate, hct, hc, hsk]⟩
    · exact ⟨.invalidCiphertextLength CT_LEN ct.length,
        by simp [VollyKEM.decapsulate, hct]⟩

/-- C5 amended witness: empty held key, all-zero CT_LEN ciphertext, decoder
that accepts it — the key-length error comes back. -/
theorem decapsulate_key_length_checked_after_ct_decode_witness :
    VollyKEM.decapsulate kemPrimA ⟨[], []⟩ ctPad =
      .error (.invalidSecretKeyLength DK_LEN 0) :=
  (decapsulate_key_length_checked_after_ct_decode kemPrimA ⟨[], []⟩ ctPad ctPad
    (by decide)).1 (by simp [ctPad, List.length_replicate]) rfl

/-- Keys stored by `VollyKEM::new` have the primitive's exact serialized lengths. -/
theorem kem_new_key_lengths (K : KemPrim) (ent : Option Bytes) (kp : VollyKEM)
    (hkp : VollyKEM.new K ent = .ok kp) :
    kp.public_key.length = EK_LEN ∧ kp.secret_key.length = DK_LEN := by
  rcases ent with _ | seed
  · simp [VollyKEM.new] at hkp
  · rcases hkg : K.keygen seed with _ | ⟨ek, dk⟩
    · simp [VollyKEM.new, hkg] at hkp
    · simp [VollyKEM.new, hkg] at hkp
      rw [← hkp]
      exact ⟨K.keygen_ek_len seed ek dk hkg, K.keygen_dk_len seed ek dk hkg⟩

/-- Keys stored by `VollyKEM::from_seed` have the exact serialized lengths. -/
theorem kem_from_seed_key_lengths (K : KemPrim) (h : Bytes → Bytes) (s : Bytes)
    (kp : VollyKEM) (hkp : VollyKEM.from_seed K h s = .ok kp) :
    kp.public_key.length = EK_LEN ∧ kp.secret_key.length = DK_LEN := by
  by_cases hs : s.length = 32
  · rcases hkg : K.keygen (h s) with _ | ⟨ek, dk⟩
    · simp [VollyKEM.from_seed, hs, hkg] at hkp
    · simp [VollyKEM.from_seed, hs, hkg] at hkp
      rw [← hkp]
      exact ⟨K.keygen_ek_len (h s) ek dk hkg, K.keygen_dk_len (h s) ek dk hkg⟩
  · simp [VollyKEM.from_seed, hs] at hkp

/-- Keys stored by `VollyKEM::from_keys` have the exact validated lengths. -/
theorem kem_from_keys_key_lengths (pk sk : Bytes) (kp : VollyKEM)
    (hkp : VollyKEM.from_keys pk sk = .ok kp) :
    kp.public_key.length = EK_LEN ∧ kp.secret_key.length = DK_LEN := by
  by_cases hpk : pk.length = EK_LEN
  · by_cases hsk : sk.length = DK_LEN
    · simp [VollyKEM.from_keys, hpk, hsk] at hkp
      rw [← hkp]
      exact ⟨hpk, hsk⟩
    · simp [VollyKEM.from_keys, hpk, hsk] at hkp
  · simp [VollyKEM.from_keys, hpk] at hkp

/-- A held key of exactly DK_LEN bytes never trips the defensive length check
in `decapsulate`: the key-length error is unreachable. -/
theorem decapsulate_no_sk_len_error (K : KemPrim) (kp : VollyKEM)
    (hdk : kp.secret_key.length = DK_LEN) (ct : Bytes) (n m : Nat) :
    VollyKEM.decapsulate K kp ct ≠ .error (.invalidSecretKeyLength n m) := by
  intro hEq
  by_cases hct : ct.length = CT_LEN
  · rcases hc : K.ctDecode ct with _ | c
    · simp [VollyKEM.decapsulate, hct, hc] at hEq
    · rcases hd : K.dkDecode kp.secret_key with _ | dk
      · simp [VollyKEM.decapsulate, hct, hc, hdk, hd] at hEq
      · rcases hds : K.decaps dk c with _ | ss
        · simp [VollyKEM.decapsulate, hct, hc, hdk, hd, hds] at hEq
        · simp [VollyKEM.decapsulate, hct, hc, hdk, hd, hds] at hEq
  · simp [VollyKEM.decapsulate, hct] at hEq

/-- Keys stored by `VollyDSA::new` have the exact serialized lengths. -/
theorem dsa_new_key_lengths (D : DsaPrim) (ent : Option Bytes) (dp : VollyDSA)
    (hdp : VollyDSA.new D ent = .ok dp) :
    dp.public_key.length = PK_LEN ∧ dp.secret_key.length = SK_LEN := by
  rcases ent with _ | seed
  · simp [VollyDSA.new] at hdp
  · rcases hkg : D.keygen seed with _ | ⟨pk, sk⟩
    · simp [VollyDSA.new, hkg] at hdp
    · simp [VollyDSA.new, hkg] at hdp
      rw [← hdp]
      exact ⟨D.keygen_pk_len seed pk sk hkg, D.keygen_sk_len seed pk sk hkg⟩

/-- Keys stored by `VollyDSA::from_seed` have the exact serialized lengths. -/
theorem dsa_from_seed_key_lengths (D : DsaPrim) (h : Bytes → Bytes) (s : Bytes)
    (dp : VollyDSA) (hdp : VollyDSA.from_seed D h s = .ok dp) :
    dp.public_key.length = PK_LEN ∧ dp.secret_key.length = SK_LEN := by
  by_cases hs : s.length = 32
  · rcases hkg : D.keygen (h s) with _ | ⟨pk, sk⟩
    · simp [VollyDSA.from_seed, hs, hkg] at hdp
    · simp [VollyDSA.from_seed, hs, hkg] at hdp
      rw [← hdp]
      exact ⟨D.keygen_pk_len (h s) pk sk hkg, D.keygen_sk_len (h s) pk sk hkg⟩
  · simp [VollyDSA.from_seed, hs] at hdp

/-- A held key of exactly SK_LEN bytes never trips the defensive length check
in `sign`: the key-length error is unreachable. -/
theorem sign_no_sk_len_error (D : DsaPrim) (dp : VollyDSA)
    (hsk : dp.secret_key.length = SK_LEN) (msg : Bytes) (ent : Option Bytes)
    (n m : Nat) :
    VollyDSA.sign D dp msg ent ≠ .error (.invalidSecretKeyLength n m) := by
  intro hEq
  rcases hd : D.skDecode dp.secret_key with _ | sk
  · simp [VollyDSA.sign, hsk, hd] at hEq
  · rcases ent with _ | seed
    · simp [VollyDSA.sign, hsk, hd] at hEq
    · rcases hts : D.tsign sk seed msg [] with _ | sg
      · simp [VollyDSA.sign, hsk, hd, hts] at hEq
      · simp [VollyDSA.sign, hsk, hd, hts] at hEq

/-- C9: every instance built by a public constructor (`new`, `from_seed`,
`from_keys` for KEM; `new`, `from_seed` for DSA) holds a public key of exactly
EK_LEN (PK_LEN) bytes and a secret key of exactly DK_LEN (SK_LEN) bytes, so the
defensive held-key length checks inside `decapsulate` and `sign` can never
fire for such instances. -/
theorem constructed_instances_have_exact_key_lengths
    (K : KemPrim) (D : DsaPrim) (h : Bytes → Bytes) (ent entD : Option Bytes)
    (s sD pk sk : Bytes) (kp : VollyKEM) (dp : VollyDSA) :
    ((VollyKEM.new K ent = .ok kp ∨ VollyKEM.from_seed K h s = .ok kp ∨
        VollyKEM.from_keys pk sk = .ok kp) →
      kp.public_key.length = EK_LEN ∧ kp.secret_key.length = DK_LEN ∧
      (∀ ct n m,
        VollyKEM.decapsulate K kp ct ≠ .error (.invalidSecretKeyLength n m))) ∧
    ((VollyDSA.new D entD = .ok dp ∨ VollyDSA.from_seed D h sD = .ok dp) →
      dp.public_key.length = PK_LEN ∧ dp.secret_key.length = SK_LEN ∧
      (∀ msg ent2 n m,
        VollyDSA.sign D dp msg ent2 ≠ .error (.invalidSecretKeyLength n m))) := by
  constructor
  · intro hkp
    have hlen : kp.public_key.length = EK_LEN ∧ kp.secret_key.length = DK_LEN := by
      rcases hkp with hkp | hkp | hkp
      · exact kem_new_key_lengths K ent kp hkp
      · exact kem_from_seed_key_lengths K h s kp hkp
      · exact kem_from_keys_key_lengths pk sk kp hkp
    exact ⟨hlen.1, hlen.2,
      fun ct n m => decapsulate_no_sk_len_error K kp hlen.2 ct n m⟩
  · intro hdp
    have hlen : dp.public_key.length = PK_LEN ∧ dp.secret_key.length = SK_LEN := by
      rcases hdp with hdp | hdp
      · exact dsa_new_key_lengths D entD dp hdp
      · exact dsa_from_seed_key_lengths D h sD dp hdp
    exact ⟨hlen.1, hlen.2,
      fun msg ent2 n m => sign_no_sk_len_error D dp hlen.2 msg ent2 n m⟩

/-- C9 witness: a `from_keys` KEM instance and a freshly generated DSA instance
at the all-zero seed. -/
theorem constructed_instances_have_exact_key_lengths_witness :
    (VollyKEM.mk ekPad dkPad).secret_key.length = DK_LEN ∧
    VollyKEM.decapsulate kemPrimA ⟨ekPad, dkPad⟩ [] ≠
      .error (.invalidSecretKeyLength DK_LEN DK_LEN) ∧
    (VollyDSA.mk (0 :: List.replicate (PK_LEN - 1) 0)
        (0 :: List.replicate (SK_LEN - 1) 0)).secret_key.length = SK_LEN := by
  have hk := constructed_instances_have_exact_key_lengths kemPrimA dsaPrimA
    hashOne (some seed0) (some seed0) seed0 seed0 ekPad dkPad ⟨ekPad, dkPad⟩
    ⟨0 :: List.replicate (PK_LEN - 1) 0, 0 :: List.replicate (SK_LEN - 1) 0⟩
  have h1 := hk.1 (Or.inr (Or.inr
    (by simp [VollyKEM.from_keys, ekPad, dkPad, List.length_replicate])))
  have h2 := hk.2 (Or.inl rfl)
  exact ⟨h1.2.1, h1.2.2 [] DK_LEN DK_LEN, h2.2.1⟩
